import Mathlib

/-!
Shallow embedding of the CUDA runtime module of this repository
(`src/runtime/cuda/cuda_module.cc`) and of the NVSHMEM bootstrap
(`InitNVSHMEM` and friends), together with theorems settling the
specification claims about them.

Conventions of the embedding:
* machine integers become `Nat`/`Int`; driver error codes become `Nat`
  (`CUDA_SUCCESS = 0`, `CUDA_ERROR_DEINITIALIZED = 4` as in the CUDA driver);
* external driver calls (`cuModuleLoadData`, `cuModuleGetGlobal`,
  `cuFuncSetAttribute`, `cuLaunchKernel`, `nvshmem_team_my_pe`, ...) are
  oracles: their observable responses are passed in as arguments and the
  side effects the code issues are collected in explicit event lists;
* `LOG(FATAL)` / failing `CHECK` become `Except.error` (or a `fatal` field)
  carrying the message the code builds;
* the `std::unordered_map` of kernel metadata becomes an association list;
  a `dmlc::Stream` becomes a list of typed items written/read in order;
* the per-blob mutex serializes every `GetFunc`/`GetGlobal` critical
  section, so a concurrent execution is an arbitrary interleaving of
  atomic critical sections: modelled as a run over a request list.
-/

namespace Spec2Proof

/-- Kernel metadata entry (`FunctionInfo` from `meta_data.h`): argument type
tags, extra argument tags and launch-parameter tags. -/
structure FunctionInfo where
  arg_types : List String
  arg_extra_tags : List String
  launch_param_tags : List String
deriving DecidableEq

/-- The CUDA module node state retained at construction
(`CUDAModuleNode` fields `data_`, `fmt_`, `fmap_`, `cuda_source_`). -/
structure CUDAModuleNode where
  data : String
  fmt : String
  fmap : List (String × FunctionInfo)
  cuda_source : String
deriving DecidableEq

/-- `CUDAModuleCreate` from cuda_module.cc. -/
def CUDAModuleCreate (data fmt : String) (fmap : List (String × FunctionInfo))
    (cuda_source : String) : CUDAModuleNode :=
  ⟨data, fmt, fmap, cuda_source⟩

/-- `CUDAModuleNode::GetSource`: the stored blob when the requested format
matches `fmt_`, else the retained CUDA source when non-empty, else the blob
when the format is ptx, else empty. -/
def GetSource (m : CUDAModuleNode) (format : String) : String :=
  if format = m.fmt then m.data
  else if m.cuda_source.length ≠ 0 then m.cuda_source
  else if m.fmt = "ptx" then m.data
  else ""

/-- CUDA driver success code. -/
def CUDA_SUCCESS : Nat := 0

/-- CUDA driver code returned when the driver is already shutting down
(the teardown-race code tolerated by the dispatcher). -/
def CUDA_ERROR_DEINITIALIZED : Nat := 4

/-- `runtime::symbol::tvm_module_main` (declared in the runtime headers). -/
def tvm_module_main : String := "__tvm_main__"

/-- `runtime::symbol::tvm_prepare_global_barrier`. -/
def tvm_prepare_global_barrier : String := "__tvm_prepare_global_barrier__"

/-- Path of the companion metadata file (`GetMetaFilePath` of file_utils):
derived from the primary path by a fixed suffix. -/
def GetMetaFilePath (file_name : String) : String :=
  file_name ++ ".tvm_meta.json"

/-- One write issued by `SaveToFile`: either the metadata companion file
(`SaveMetaDataToFile`) or the binary payload file (`SaveBinaryToFile`). -/
inductive FileWrite where
  | meta (path : String) (fmap : List (String × FunctionInfo))
  | binary (path : String) (content : String)
deriving DecidableEq

/-- `CUDAModuleNode::SaveToFile` after `GetFileFormat` has resolved the
requested format `fmt`: the `cu` branch demands a non-empty retained source
(`ICHECK_NE(cuda_source_.length(), 0)`) and writes the source, any other
format must equal the stored `fmt_` (`ICHECK_EQ(fmt, fmt_)`) and writes the
blob; both write the metadata companion file first. -/
def SaveToFile (m : CUDAModuleNode) (file_name : String) (fmt : String) :
    Except String (List FileWrite) :=
  if fmt = "cu" then
    if m.cuda_source.length = 0 then
      .error "FormatError: no cuda source retained"
    else
      .ok [.meta (GetMetaFilePath file_name) m.fmap, .binary file_name m.cuda_source]
  else if fmt = m.fmt then
    .ok [.meta (GetMetaFilePath file_name) m.fmap, .binary file_name m.data]
  else
    .error ("FormatError: can only save to format " ++ m.fmt)

/-- One item of a `dmlc::Stream`: a serialized string or a serialized
kernel-info map (their byte encodings are external collaborators, so the
stream is modelled at field granularity, in write order). -/
inductive StreamItem where
  | str (s : String)
  | infoMap (m : List (String × FunctionInfo))
deriving DecidableEq

/-- `CUDAModuleNode::SaveToBinary`: writes the format tag, then the
kernel-info map, then the blob bytes, in that order. -/
def SaveToBinary (m : CUDAModuleNode) : List StreamItem :=
  [.str m.fmt, .infoMap m.fmap, .str m.data]

/-- `CUDAModuleLoadBinary`: reads the format tag, the kernel-info map and
the blob from the stream, in that order, and creates a module with no
retained source; `none` when the stream does not decode. Returns the rest
of the stream alongside the module. -/
def CUDAModuleLoadBinary : List StreamItem → Option (CUDAModuleNode × List StreamItem)
  | .str fmt :: .infoMap fmap :: .str data :: rest =>
      some (CUDAModuleCreate data fmt fmap "", rest)
  | _ => none

/-- Read the binary payload written at `path` from a list of file writes
(`LoadBinaryFromFile`). -/
def readBinary (fs : List FileWrite) (path : String) : Option String :=
  fs.findSome? fun w =>
    match w with
    | .binary p c => if p = path then some c else none
    | .meta _ _ => none

/-- Read the metadata companion written at `path` from a list of file
writes (`LoadMetaDataFromFile`). -/
def readMeta (fs : List FileWrite) (path : String) :
    Option (List (String × FunctionInfo)) :=
  fs.findSome? fun w =>
    match w with
    | .meta p fmap => if p = path then some fmap else none
    | .binary _ _ => none

/-- `CUDAModuleLoadFile` after `GetFileFormat` has resolved `fmt`: loads
the payload from `file_name` and the metadata from the companion path and
creates a module with no retained source. -/
def CUDAModuleLoadFile (fs : List FileWrite) (file_name : String) (fmt : String) :
    Option CUDAModuleNode :=
  match readBinary fs file_name, readMeta fs (GetMetaFilePath file_name) with
  | some data, some fmap => some (CUDAModuleCreate data fmt fmap "")
  | _, _ => none

/-- Response of the `cuModuleGetGlobal` driver call: result code, resolved
device pointer, and the size the driver reports for the symbol. -/
structure GlobalQueryResult where
  result : Nat
  global : Nat
  nbytes : Nat
deriving DecidableEq

/-- Tail of `CUDAModuleNode::GetGlobal` after the module is ensured loaded:
`ICHECK_EQ(nbytes, expect_nbytes)` fires first on a size mismatch, then a
non-success driver result is fatal, else the resolved address is returned. -/
def resolveGlobal (q : GlobalQueryResult) (global_name : String)
    (expect_nbytes : Nat) (errName : Nat → String) : Except String Nat :=
  if q.nbytes ≠ expect_nbytes then
    .error ("ConfigurationError: nbytes == expect_nbytes mismatch for " ++ global_name)
  else if q.result ≠ CUDA_SUCCESS then
    .error ("CUDAError: cuModuleGetGlobal " ++ global_name ++
      " failed with error: " ++ errName q.result)
  else
    .ok q.global

/-- Result of `CUDAModuleNode::GetFunction`: a null function, the global
barrier preparation functor, or a wrapped dispatcher for a kernel. -/
inductive GetFunctionResult where
  | empty
  | globalBarrier
  | wrapped (func_name : String) (info : FunctionInfo)
deriving DecidableEq

/-- `CUDAModuleNode::GetFunction`: the reserved module-main name is fatal
(`ICHECK_NE(name, symbol::tvm_module_main)`), the barrier entry point gets
the barrier functor, a name absent from `fmap_` yields a null function, and
a present name yields the wrapped dispatcher. -/
def GetFunction (m : CUDAModuleNode) (name : String) :
    Except String GetFunctionResult :=
  if name = tvm_module_main then
    .error "Device function do not have main"
  else if name = tvm_prepare_global_barrier then
    .ok .globalBarrier
  else
    match m.fmap.lookup name with
    | none => .ok .empty
    | some info => .ok (.wrapped name info)

/-- State of the per-device module table of a `CUDAModuleNode`
(`module_ : std::array<CUmodule, kMaxNumGPUs>`, all slots null at
construction) together with a count of `cuModuleLoadData` calls issued per
device (for stating the at-most-one-load property). Handles are `Nat`;
slot `none` is the null `CUmodule`. -/
structure ModuleCacheState where
  slot : Nat → Option Nat
  loads : Nat → Nat

/-- The table right after the `CUDAModuleNode` constructor: every slot
null, no load issued. -/
def initCache : ModuleCacheState :=
  ⟨fun _ => none, fun _ => 0⟩

/-- The critical section shared by `GetFunc` and `GetGlobal`: under the
module mutex, recheck the slot; when null, issue `cuModuleLoadData` for
this device (the oracle supplies the handle `fresh` it produces) and store
it; return the slot's handle. The caller-visible result is the handle the
subsequent `cuModuleGetFunction` / `cuModuleGetGlobal` runs against. -/
def getModule (st : ModuleCacheState) (d : Nat) (fresh : Nat) :
    ModuleCacheState × Nat :=
  match st.slot d with
  | some h => (st, h)
  | none =>
      (⟨fun i => if i = d then some fresh else st.slot i,
        fun i => if i = d then st.loads i + 1 else st.loads i⟩, fresh)

/-- A run of critical sections: the mutex makes each `getModule` atomic, so
any concurrent execution is some interleaving, i.e. a list of requests
`(device, oracle handle)` processed in order. Returns the final table and
the list of `(device, observed handle)` results. -/
def runCache : ModuleCacheState → List (Nat × Nat) →
    ModuleCacheState × List (Nat × Nat)
  | st, [] => (st, [])
  | st, q :: rest =>
      let s1 := getModule st q.1 q.2
      let s2 := runCache s1.1 rest
      (s2.1, (q.1, s1.2) :: s2.2)

/-- Per-device kernel handle cache of one `CUDAWrappedFunc`
(`fcache_ : std::array<CUfunction, kMaxNumGPUs>`, filled with null by
`Init`). -/
structure DispatchState where
  fcache : Nat → Option Nat

/-- `fcache_` right after `CUDAWrappedFunc::Init`. -/
def initDispatch : DispatchState :=
  ⟨fun _ => none⟩

/-- `ThreadWorkLoad`: resolved grid dims, block dims and dynamic shared
memory bytes. -/
structure ThreadWorkLoad where
  gridDim0 : Nat
  gridDim1 : Nat
  gridDim2 : Nat
  blockDim0 : Nat
  blockDim1 : Nat
  blockDim2 : Nat
  dyn_shmem_size : Nat
deriving DecidableEq

/-- A `cuFuncSetAttribute(f, CU_FUNC_ATTRIBUTE_MAX_DYNAMIC_SHARED_SIZE_BYTES, n)`
call issued by the dispatcher. -/
inductive ConfigEvent where
  | setMaxDynShmem (func : Nat) (bytes : Nat)
deriving DecidableEq

/-- `DispatchState` with device `d` bound to handle `h`. -/
def bindFunc (st : DispatchState) (d : Nat) (h : Nat) : DispatchState :=
  ⟨fun i => if i = d then some h else st.fcache i⟩

/-- The resolution prefix of `CUDAWrappedFunc::operator()` for device `d`:
when `fcache_[d]` is null, resolve the handle via `GetFunc` (oracle value
`h`), store it, and when the extracted `wl.dyn_shmem_size >= (48 << 10)`
raise the kernel's shared-memory ceiling once — fatal when the driver
rejects the raise (`accepts = false`). When `fcache_[d]` is already set,
nothing is resolved or configured. Returns the new state, the handle the
launch will use, and the configuration calls issued. -/
def invokeResolve (st : DispatchState) (d : Nat) (h : Nat)
    (wl : ThreadWorkLoad) (accepts : Bool) :
    Except String (DispatchState × Nat × List ConfigEvent) :=
  match st.fcache d with
  | some f => .ok (st, f, [])
  | none =>
      if wl.dyn_shmem_size ≥ 48 * 1024 then
        if accepts then
          .ok (bindFunc st d h, h, [.setMaxDynShmem h wl.dyn_shmem_size])
        else
          .error ("Failed to set the allowed dynamic shared memory size to "
            ++ toString wl.dyn_shmem_size)
      else
        .ok (bindFunc st d h, h, [])

/-- Substring containment: the launch diagnostic is built by streaming
pieces into one `std::ostringstream`, so "the diagnostic contains X" is "X
occurs contiguously in the message". -/
def strContains (hay needle : String) : Prop :=
  needle.data <:+: hay.data

instance (hay needle : String) : Decidable (strContains hay needle) :=
  inferInstanceAs (Decidable (needle.data <:+: hay.data))

/-- The ` grid=(g0,g1,g2), ` fragment of the launch diagnostic. -/
def gridDimsStr (wl : ThreadWorkLoad) : String :=
  " grid=(" ++ toString wl.gridDim0 ++ "," ++ toString wl.gridDim1 ++ ","
    ++ toString wl.gridDim2 ++ "), "

/-- The ` block=(b0,b1,b2)` fragment of the launch diagnostic. -/
def blockDimsStr (wl : ThreadWorkLoad) : String :=
  " block=(" ++ toString wl.blockDim0 ++ "," ++ toString wl.blockDim1 ++ ","
    ++ toString wl.blockDim2 ++ ")\n"

/-- The diagnostic `CUDAWrappedFunc::operator()` builds on a launch
failure: error name, resolved dims, and — only when `GetSource("")` is
non-empty — the kernel name and the source text. -/
def launchErrorMessage (m : CUDAModuleNode) (func_name : String)
    (wl : ThreadWorkLoad) (errName : Nat → String) (code : Nat) : String :=
  let base := "CUDALaunch Error: " ++ errName code ++ "\n"
    ++ gridDimsStr wl ++ blockDimsStr wl
  let cuda := GetSource m ""
  if cuda.length ≠ 0 then
    base ++ "// func_name=" ++ func_name ++ "\n// CUDA Source\n// -----------\n"
      ++ cuda
  else
    base

/-- Tail of `CUDAWrappedFunc::operator()` after `cuLaunchKernel` returned
`code`: any code other than success or `CUDA_ERROR_DEINITIALIZED` is fatal
with the built diagnostic; the teardown-race code returns normally. -/
def launchOutcome (m : CUDAModuleNode) (func_name : String)
    (wl : ThreadWorkLoad) (errName : Nat → String) (code : Nat) :
    Except String Unit :=
  if code ≠ CUDA_SUCCESS ∧ code ≠ CUDA_ERROR_DEINITIALIZED then
    .error (launchErrorMessage m func_name wl errName code)
  else
    .ok ()

/-- One launch-parameter tag: which `LaunchConfig` slot a call argument
supplies. -/
inductive LaunchParamTag where
  | gridX
  | gridY
  | gridZ
  | blockX
  | blockY
  | blockZ
  | dynShmem
deriving DecidableEq

/-- The workload before any tag is applied: unset grid/block dims are 1,
unset dynamic shared memory is 0. -/
def defaultWorkLoad : ThreadWorkLoad :=
  ⟨1, 1, 1, 1, 1, 1, 0⟩

/-- Modelled from the spec: the launch-parameter resolver
(`LaunchParamConfig::Extract` of pack_args.h, not under src/) writes the
call argument selected by a tag into the corresponding workload slot. -/
def applyTag (wl : ThreadWorkLoad) (t : LaunchParamTag) (v : Nat) :
    ThreadWorkLoad :=
  match t with
  | .gridX => { wl with gridDim0 := v }
  | .gridY => { wl with gridDim1 := v }
  | .gridZ => { wl with gridDim2 := v }
  | .blockX => { wl with blockDim0 := v }
  | .blockY => { wl with blockDim1 := v }
  | .blockZ => { wl with blockDim2 := v }
  | .dynShmem => { wl with dyn_shmem_size := v }

/-- Modelled from the spec: `resolve(argList, tagList) -> LaunchConfig` —
the i-th launch-parameter tag selects the i-th trailing call argument;
slots no tag selects keep their defaults (1 for dims, 0 for shared
memory). Pure and stateless. -/
def extractLaunchParams (tags : List LaunchParamTag) (args : List Nat) :
    ThreadWorkLoad :=
  (tags.zip args).foldl (fun wl p => applyTag wl p.1 p.2) defaultWorkLoad

/-- The workload slot a tag feeds. -/
def tagSlot (t : LaunchParamTag) (wl : ThreadWorkLoad) : Nat :=
  match t with
  | .gridX => wl.gridDim0
  | .gridY => wl.gridDim1
  | .gridZ => wl.gridDim2
  | .blockX => wl.blockDim0
  | .blockY => wl.blockDim1
  | .blockZ => wl.blockDim2
  | .dynShmem => wl.dyn_shmem_size

/-- A DLPack device (`DLDevice`): type code and index. `kDLCPU = 1`,
`kDLCUDA = 2`. -/
structure Device where
  device_type : Nat
  device_id : Nat
deriving DecidableEq

/-- DLPack device type code for CPU. -/
def kDLCPU : Nat := 1

/-- DLPack device type code for CUDA. -/
def kDLCUDA : Nat := 2

/-- The fields of `DiscoWorker` that `InitNVSHMEM` reads and writes:
local worker id and the mutable default device. -/
structure DiscoWorker where
  worker_id : Nat
  default_device : Device
deriving DecidableEq

/-- A side effect `InitNVSHMEM` issues against the device and the fabric:
`cudaSetDevice`, or the `nvshmemx_init_attr` join with
`(rank, count, uid)`. -/
inductive BootstrapEffect where
  | setDevice (d : Nat)
  | fabricJoin (rank : Nat) (count : Nat) (uidVersion : Int) (uidInternal : List Int)
deriving DecidableEq

/-- Outcome of `InitNVSHMEM`: the effects issued before returning or dying,
whether a `CHECK`/`ICHECK` fired (`fatal`), and the worker context as left
behind (its `default_device` is mutated only on the no-default path). -/
structure BootstrapResult where
  effects : List BootstrapEffect
  fatal : Option String
  worker : Option DiscoWorker
deriving DecidableEq

/-- `InitNVSHMEM(uid_64, num_workers, worker_id_start)`. `padding` is the
external protocol constant `UNIQUEID_PADDING` of the nvshmem headers;
`mype_node` is the oracle answer of `nvshmem_team_my_pe(NVSHMEMX_TEAM_NODE)`
(the fabric-assigned device). The length check fires before any
`cudaSetDevice` or join; after the join the fabric-assigned device is
activated and reconciled against the worker's default device. -/
def InitNVSHMEM (padding : Nat) (uid_64 : List Int)
    (num_workers worker_id_start : Nat) (worker : Option DiscoWorker)
    (mype_node : Nat) : BootstrapResult :=
  let worker_id :=
    match worker with
    | none => worker_id_start
    | some w => worker_id_start + w.worker_id
  if uid_64.length ≠ padding + 1 then
    { effects := [],
      fatal := some ("ValueError: The length of unique_id must be "
        ++ toString padding ++ ", but got " ++ toString uid_64.length ++ "."),
      worker := worker }
  else
    let effects := [BootstrapEffect.setDevice worker_id,
                    BootstrapEffect.fabricJoin worker_id num_workers
                      (uid_64.headD 0) (uid_64.drop 1),
                    BootstrapEffect.setDevice mype_node]
    match worker with
    | none => { effects := effects, fatal := none, worker := none }
    | some w =>
        if w.default_device.device_type = kDLCPU then
          { effects := effects, fatal := none,
            worker := some { w with default_device := ⟨kDLCUDA, mype_node⟩ } }
        else if w.default_device.device_type = kDLCUDA
            ∧ w.default_device.device_id = mype_node then
          { effects := effects, fatal := none, worker := some w }
        else
          { effects := effects,
            fatal := some "The default device of the worker is inconsistent with the device used for NVSHMEM.",
            worker := some w }

/-- After a critical section for device `d`, slot `d` holds exactly the
handle the caller observed. -/
theorem getModule_slot_self (st : ModuleCacheState) (d fresh : Nat) :
    ((getModule st d fresh).1).slot d = some (getModule st d fresh).2 := by
  unfold getModule
  cases h : st.slot d with
  | some x => simp [h]
  | none => simp [h]

/-- A critical section never overwrites an already-populated slot. -/
theorem getModule_mono (st : ModuleCacheState) (d e fresh m : Nat)
    (h : st.slot d = some m) : ((getModule st e fresh).1).slot d = some m := by
  unfold getModule
  cases he : st.slot e with
  | some x => simpa [he]
  | none =>
      by_cases hde : d = e
      · subst hde
        rw [h] at he
        cases he
      · simp [he, hde, h]

/-- A run never overwrites an already-populated slot. -/
theorem runCache_mono (tr : List (Nat × Nat)) :
    ∀ (st : ModuleCacheState) (d m : Nat), st.slot d = some m →
      ((runCache st tr).1).slot d = some m := by
  induction tr with
  | nil => intro st d m h; simpa [runCache]
  | cons q rest ih =>
      intro st d m h
      simp only [runCache]
      exact ih _ d m (getModule_mono st d q.1 q.2 m h)

/-- Every handle observed during a run is the one the final table holds for
that device. -/
theorem runCache_result (tr : List (Nat × Nat)) :
    ∀ (st : ModuleCacheState) (d r : Nat), (d, r) ∈ (runCache st tr).2 →
      ((runCache st tr).1).slot d = some r := by
  induction tr with
  | nil => intro st d r h; simp [runCache] at h
  | cons q rest ih =>
      intro st d r h
      simp only [runCache] at h ⊢
      rcases List.mem_cons.mp h with h1 | h2
      · rw [Prod.mk.injEq] at h1
        obtain ⟨hd, hr⟩ := h1
        subst hd
        subst hr
        exact runCache_mono rest _ _ _ (getModule_slot_self st q.1 q.2)
      · exact ih _ d r h2

/-- Invariant tying load counts to slot population: an empty slot has seen
no load, and no device has seen more than one. -/
def CacheInv (st : ModuleCacheState) : Prop :=
  ∀ d, (st.slot d = none → st.loads d = 0) ∧ st.loads d ≤ 1

/-- A critical section preserves the cache invariant. -/
theorem getModule_inv (st : ModuleCacheState) (d fresh : Nat)
    (h : CacheInv st) : CacheInv (getModule st d fresh).1 := by
  unfold getModule
  cases he : st.slot d with
  | some x => simpa using h
  | none =>
      intro e
      by_cases hed : e = d
      · subst hed
        refine ⟨fun hc => ?_, ?_⟩
        · simp at hc
        · simp [(h e).1 he]
      · refine ⟨fun hc => ?_, ?_⟩
        · simp only [hed, if_false] at hc ⊢
          simpa [hed] using (h e).1 hc
        · simpa [hed] using (h e).2

/-- A run preserves the cache invariant. -/
theorem runCache_inv (tr : List (Nat × Nat)) :
    ∀ st : ModuleCacheState, CacheInv st → CacheInv (runCache st tr).1 := by
  induction tr with
  | nil => intro st h; simpa [runCache]
  | cons q rest ih =>
      intro st h
      simp only [runCache]
      exact ih _ (getModule_inv st q.1 q.2 h)

/-- The freshly constructed table satisfies the invariant. -/
theorem initCache_inv : CacheInv initCache := by
  intro d
  exact ⟨fun _ => rfl, by simp [initCache]⟩

/-- A run over a concatenation is the composition of the runs. -/
theorem runCache_append (tr more : List (Nat × Nat)) :
    ∀ st, (runCache st (tr ++ more)).1 = (runCache (runCache st tr).1 more).1 := by
  induction tr with
  | nil => intro st; simp [runCache]
  | cons q rest ih =>
      intro st
      simp only [List.cons_append, runCache]
      exact ih _

/-- C1: over any interleaving of `GetFunc`/`GetGlobal` critical sections on
one blob, at most one `cuModuleLoadData` is ever issued per device slot,
every caller at a device observes the handle the slot finally holds (so all
callers at a device observe one common non-null handle), and a populated
slot never changes during any continuation of the run. -/
theorem C1_module_cache_single_load (tr : List (Nat × Nat)) (d : Nat) :
    ((runCache initCache tr).1).loads d ≤ 1 ∧
    (∀ r, (d, r) ∈ (runCache initCache tr).2 →
      ((runCache initCache tr).1).slot d = some r) ∧
    (∀ more m, ((runCache initCache tr).1).slot d = some m →
      ((runCache initCache (tr ++ more)).1).slot d = some m) := by
  refine ⟨(runCache_inv tr initCache initCache_inv d).2, ?_, ?_⟩
  · intro r h
    exact runCache_result tr initCache d r h
  · intro more m h
    rw [runCache_append tr more initCache]
    exact runCache_mono more _ d m h

/-- Witness for C1: two racing callers on device 0 — the second observes
the handle created by the first, and the slot still holds it. -/
theorem C1_module_cache_single_load_witness :
    ((runCache initCache ([(0, 7)] ++ [(0, 9)])).1).slot 0 = some 7 ∧
    ((runCache initCache [(0, 7), (0, 9)]).1).loads 0 ≤ 1 := by
  constructor
  · exact (C1_module_cache_single_load [(0, 7)] 0).2.2 [(0, 9)] 7 rfl
  · exact (C1_module_cache_single_load [(0, 7), (0, 9)] 0).1

/-- C2 counterexample: at exactly 48 KiB (49152 bytes) of requested
dynamic shared memory — which does not exceed 48 KiB — the first
resolution still raises the shared-memory ceiling, because the code tests
`wl.dyn_shmem_size >= (48 << 10)`, not a strict inequality. -/
theorem C2_counterexample_exactly_48KiB :
    invokeResolve initDispatch 0 5 ⟨1, 1, 1, 1, 1, 1, 49152⟩ true
      = .ok (bindFunc initDispatch 0 5, 5, [.setMaxDynShmem 5 49152]) ∧
    ¬ (49152 > 48 * 1024) :=
  ⟨rfl, by decide⟩

/-- C2 (amended): on the first resolution for a device the ceiling is
raised if and only if the requested dynamic shared memory is at least
48 KiB (fatal when the driver rejects it); any invocation that finds the
kernel handle already cached performs no configuration; and a successful
invocation always leaves the handle cached, so later invocations take the
no-configuration path. -/
theorem C2_shared_mem_config_once (st : DispatchState) (d h : Nat)
    (wl : ThreadWorkLoad) (accepts : Bool) :
    (st.fcache d = none → wl.dyn_shmem_size < 48 * 1024 →
      invokeResolve st d h wl accepts = .ok (bindFunc st d h, h, [])) ∧
    (st.fcache d = none → 48 * 1024 ≤ wl.dyn_shmem_size → accepts = true →
      invokeResolve st d h wl accepts
        = .ok (bindFunc st d h, h, [.setMaxDynShmem h wl.dyn_shmem_size])) ∧
    (st.fcache d = none → 48 * 1024 ≤ wl.dyn_shmem_size → accepts = false →
      ∃ msg, invokeResolve st d h wl accepts = .error msg) ∧
    (∀ f, st.fcache d = some f →
      invokeResolve st d h wl accepts = .ok (st, f, [])) ∧
    (∀ st1 r evs, invokeResolve st d h wl accepts = .ok (st1, r, evs) →
      ∃ f, st1.fcache d = some f) := by
  refine ⟨?_, ?_, ?_, ?_, ?_⟩
  · intro h0 hlt
    simp [invokeResolve, h0, Nat.not_le.mpr hlt]
  · intro h0 hge ha
    simp [invokeResolve, h0, hge, ha]
  · intro h0 hge ha
    subst ha
    simp [invokeResolve, h0, hge]
  · intro f hf
    simp [invokeResolve, hf]
  · intro st1 r evs hok
    cases hf : st.fcache d with
    | some f =>
        simp [invokeResolve, hf] at hok
        obtain ⟨h1, -, -⟩ := hok
        exact ⟨f, by rw [← h1]; exact hf⟩
    | none =>
        refine ⟨h, ?_⟩
        simp only [invokeResolve, hf] at hok
        by_cases hge : wl.dyn_shmem_size ≥ 48 * 1024
        · cases ha : accepts with
          | true =>
              simp [hge, ha] at hok
              obtain ⟨h1, -, -⟩ := hok
              rw [← h1]
              simp [bindFunc]
          | false => simp [hge, ha] at hok
        · simp [hge] at hok
          obtain ⟨h1, -, -⟩ := hok
          rw [← h1]
          simp [bindFunc]

/-- Witness for C2: a first resolution with no dynamic shared memory
performs no ceiling configuration and caches the handle. -/
theorem C2_shared_mem_config_once_witness :
    invokeResolve initDispatch 0 3 ⟨1, 1, 1, 1, 1, 1, 0⟩ true
      = .ok (bindFunc initDispatch 0 3, 3, []) :=
  (C2_shared_mem_config_once initDispatch 0 3 ⟨1, 1, 1, 1, 1, 1, 0⟩ true).1
    rfl (by decide)

/-- A string whose character data splits around `mid` contains `mid`. -/
theorem strContains_intro (hay mid pre post : String)
    (h : hay.data = (pre ++ mid ++ post).data) : strContains hay mid := by
  refine ⟨pre.data, post.data, ?_⟩
  rw [h]
  simp [String.data_append]

/-- A string of length zero is the empty string. -/
theorem string_eq_empty_of_length_zero (s : String) (h : s.length = 0) :
    s = "" := by
  apply String.ext
  have hd : s.data.length = 0 := h
  simpa using List.length_eq_zero.mp hd

/-- C3 counterexample: a module that retained no source text (and whose
format is not ptx) fails a launch with a diagnostic that does not contain
the kernel name "add" anywhere — the code only prints the kernel name
inside the non-empty-source branch, against the claim that the diagnostic
always contains the kernel name. -/
theorem C3_counterexample_no_source :
    launchOutcome (CUDAModuleCreate "rawblob" "cubin" [] "") "add"
      ⟨1, 1, 1, 1, 1, 1, 0⟩ (fun _ => "ERR") 1
      = .error "CUDALaunch Error: ERR\n grid=(1,1,1),  block=(1,1,1)\n" ∧
    ¬ strContains "CUDALaunch Error: ERR\n grid=(1,1,1),  block=(1,1,1)\n" "add" :=
  ⟨rfl, by decide⟩

/-- C3 (amended): on any driver code other than success and the
teardown-race code the launch fails fatally with a diagnostic containing
the error name and the resolved grid and block dimensions, and — exactly
when the retained source (`GetSource("")`) is non-empty — also the kernel
name and that source text; the teardown-race code `CUDA_ERROR_DEINITIALIZED`
is silently ignored and the call returns normally. -/
theorem C3_launch_failure_diagnostic (m : CUDAModuleNode) (fn : String)
    (wl : ThreadWorkLoad) (errName : Nat → String) (code : Nat) :
    (code ≠ CUDA_SUCCESS → code ≠ CUDA_ERROR_DEINITIALIZED →
      launchOutcome m fn wl errName code
        = .error (launchErrorMessage m fn wl errName code) ∧
      strContains (launchErrorMessage m fn wl errName code) (errName code) ∧
      strContains (launchErrorMessage m fn wl errName code) (gridDimsStr wl) ∧
      strContains (launchErrorMessage m fn wl errName code) (blockDimsStr wl) ∧
      (GetSource m "" ≠ "" →
        strContains (launchErrorMessage m fn wl errName code)
          ("// func_name=" ++ fn) ∧
        strContains (launchErrorMessage m fn wl errName code)
          (GetSource m ""))) ∧
    launchOutcome m fn wl errName CUDA_ERROR_DEINITIALIZED = .ok () := by
  constructor
  · intro h0 h4
    have hout : launchOutcome m fn wl errName code
        = .error (launchErrorMessage m fn wl errName code) := by
      simp [launchOutcome, h0, h4]
    by_cases hs : GetSource m "" = ""
    · have hmsg : launchErrorMessage m fn wl errName code
          = "CUDALaunch Error: " ++ errName code ++ "\n"
            ++ gridDimsStr wl ++ blockDimsStr wl := by
        simp [launchErrorMessage, hs]
      refine ⟨hout, ?_, ?_, ?_, fun hne => absurd hs hne⟩
      · exact strContains_intro _ (errName code) "CUDALaunch Error: "
          ("\n" ++ gridDimsStr wl ++ blockDimsStr wl)
          (by simp [hmsg, String.data_append])
      · exact strContains_intro _ (gridDimsStr wl)
          ("CUDALaunch Error: " ++ errName code ++ "\n") (blockDimsStr wl)
          (by simp [hmsg, String.data_append])
      · exact strContains_intro _ (blockDimsStr wl)
          ("CUDALaunch Error: " ++ errName code ++ "\n" ++ gridDimsStr wl) ""
          (by simp [hmsg, String.data_append])
    · have hlen : (GetSource m "").length ≠ 0 := by
        intro hc
        exact hs (string_eq_empty_of_length_zero _ hc)
      have hmsg : launchErrorMessage m fn wl errName code
          = "CUDALaunch Error: " ++ errName code ++ "\n"
            ++ gridDimsStr wl ++ blockDimsStr wl
            ++ "// func_name=" ++ fn ++ "\n// CUDA Source\n// -----------\n"
            ++ GetSource m "" := by
        simp [launchErrorMessage, hlen]
      refine ⟨hout, ?_, ?_, ?_, fun _ => ⟨?_, ?_⟩⟩
      · exact strContains_intro _ (errName code) "CUDALaunch Error: "
          ("\n" ++ gridDimsStr wl ++ blockDimsStr wl ++ "// func_name=" ++ fn
            ++ "\n// CUDA Source\n// -----------\n" ++ GetSource m "")
          (by simp [hmsg, String.data_append])
      · exact strContains_intro _ (gridDimsStr wl)
          ("CUDALaunch Error: " ++ errName code ++ "\n")
          (blockDimsStr wl ++ "// func_name=" ++ fn
            ++ "\n// CUDA Source\n// -----------\n" ++ GetSource m "")
          (by simp [hmsg, String.data_append])
      · exact strContains_intro _ (blockDimsStr wl)
          ("CUDALaunch Error: " ++ errName code ++ "\n" ++ gridDimsStr wl)
          ("// func_name=" ++ fn ++ "\n// CUDA Source\n// -----------\n"
            ++ GetSource m "")
          (by simp [hmsg, String.data_append])
      · exact strContains_intro _ ("// func_name=" ++ fn)
          ("CUDALaunch Error: " ++ errName code ++ "\n" ++ gridDimsStr wl
            ++ blockDimsStr wl)
          ("\n// CUDA Source\n// -----------\n" ++ GetSource m "")
          (by simp [hmsg, String.data_append])
      · exact strContains_intro _ (GetSource m "")
          ("CUDALaunch Error: " ++ errName code ++ "\n" ++ gridDimsStr wl
            ++ blockDimsStr wl ++ "// func_name=" ++ fn
            ++ "\n// CUDA Source\n// -----------\n") ""
          (by simp [hmsg, String.data_append])
  · simp [launchOutcome, CUDA_SUCCESS, CUDA_ERROR_DEINITIALIZED]

/-- Witness for C3: a failing launch on a module with retained source has
a diagnostic containing the kernel name and the source text. -/
theorem C3_launch_failure_diagnostic_witness :
    strContains
      (launchErrorMessage (CUDAModuleCreate "blob" "cubin" [] "kernelsrc")
        "k" ⟨2, 1, 1, 8, 1, 1, 0⟩ (fun _ => "ENAME") 1)
      ("// func_name=" ++ "k") ∧
    launchOutcome (CUDAModuleCreate "blob" "cubin" [] "kernelsrc")
      "k" ⟨2, 1, 1, 8, 1, 1, 0⟩ (fun _ => "ENAME") CUDA_ERROR_DEINITIALIZED
      = .ok () := by
  constructor
  · exact (((C3_launch_failure_diagnostic
      (CUDAModuleCreate "blob" "cubin" [] "kernelsrc")
      "k" ⟨2, 1, 1, 8, 1, 1, 0⟩ (fun _ => "ENAME") 1).1
        (by decide) (by decide)).2.2.2.2 (by decide)).1
  · exact (C3_launch_failure_diagnostic
      (CUDAModuleCreate "blob" "cubin" [] "kernelsrc")
      "k" ⟨2, 1, 1, 8, 1, 1, 0⟩ (fun _ => "ENAME") 1).2

/-- C4: a unique-id payload whose length is not one version field plus the
protocol-constant number of internal fields makes bootstrap-join fail the
fatal length validation before any effect: no `cudaSetDevice` and no fabric
join is issued, and the worker context is untouched. -/
theorem C4_uid_length_validation (padding : Nat) (uid_64 : List Int)
    (num_workers worker_id_start : Nat) (worker : Option DiscoWorker)
    (mype_node : Nat) (h : uid_64.length ≠ padding + 1) :
    (InitNVSHMEM padding uid_64 num_workers worker_id_start worker
        mype_node).fatal.isSome = true ∧
    (InitNVSHMEM padding uid_64 num_workers worker_id_start worker
        mype_node).effects = [] ∧
    (InitNVSHMEM padding uid_64 num_workers worker_id_start worker
        mype_node).worker = worker := by
  refine ⟨?_, ?_, ?_⟩ <;> simp [InitNVSHMEM, h]

/-- Witness for C4: a 5-element unique id against a protocol constant of
8 internal fields fails with no effects. -/
theorem C4_uid_length_validation_witness :
    (InitNVSHMEM 8 [1, 2, 3, 4, 5] 2 0 none 0).fatal.isSome = true ∧
    (InitNVSHMEM 8 [1, 2, 3, 4, 5] 2 0 none 0).effects = [] ∧
    (InitNVSHMEM 8 [1, 2, 3, 4, 5] 2 0 none 0).worker = none :=
  C4_uid_length_validation 8 [1, 2, 3, 4, 5] 2 0 none 0 (by decide)

/-- C5: after a bootstrap that passes the length validation (and hence
joins the fabric), a worker whose default device is the CPU sentinel (no
declared default) gets the fabric-assigned CUDA device as default; a
declared default equal to the fabric-assigned device in kind and index is
left unchanged and is not fatal; any other declared default is fatal and
the default device is not mutated. -/
theorem C5_default_device_reconciliation (padding : Nat) (uid_64 : List Int)
    (num_workers worker_id_start : Nat) (w : DiscoWorker) (mype_node : Nat)
    (hlen : uid_64.length = padding + 1) :
    (w.default_device.device_type = kDLCPU →
      (InitNVSHMEM padding uid_64 num_workers worker_id_start (some w)
          mype_node).fatal = none ∧
      (InitNVSHMEM padding uid_64 num_workers worker_id_start (some w)
          mype_node).worker
        = some { w with default_device := ⟨kDLCUDA, mype_node⟩ }) ∧
    (w.default_device.device_type = kDLCUDA →
      w.default_device.device_id = mype_node →
      (InitNVSHMEM padding uid_64 num_workers worker_id_start (some w)
          mype_node).fatal = none ∧
      (InitNVSHMEM padding uid_64 num_workers worker_id_start (some w)
          mype_node).worker = some w) ∧
    (w.default_device.device_type ≠ kDLCPU →
      ¬ (w.default_device.device_type = kDLCUDA
          ∧ w.default_device.device_id = mype_node) →
      (InitNVSHMEM padding uid_64 num_workers worker_id_start (some w)
          mype_node).fatal.isSome = true ∧
      (InitNVSHMEM padding uid_64 num_workers worker_id_start (some w)
          mype_node).worker = some w) := by
  refine ⟨?_, ?_, ?_⟩
  · intro hcpu
    constructor <;> simp [InitNVSHMEM, hlen, hcpu]
  · intro hcuda hid
    have hne : w.default_device.device_type ≠ kDLCPU := by
      rw [hcuda]
      simp [kDLCPU, kDLCUDA]
    constructor <;> simp [InitNVSHMEM, hlen, hne, hcuda, hid, kDLCPU, kDLCUDA]
  · intro hne hmis
    constructor <;> simp [InitNVSHMEM, hlen, hne, hmis]

/-- Witness for C5: a worker with CPU default device adopts the
fabric-assigned CUDA device; one already set to that CUDA device is left
unchanged; one set to a different CUDA index dies without mutation. -/
theorem C5_default_device_reconciliation_witness :
    (InitNVSHMEM 2 [9, 8, 7] 2 0 (some ⟨0, ⟨kDLCPU, 0⟩⟩) 3).worker
      = some ⟨0, ⟨kDLCUDA, 3⟩⟩ ∧
    (InitNVSHMEM 2 [9, 8, 7] 2 0 (some ⟨0, ⟨kDLCUDA, 3⟩⟩) 3).worker
      = some ⟨0, ⟨kDLCUDA, 3⟩⟩ ∧
    (InitNVSHMEM 2 [9, 8, 7] 2 0 (some ⟨0, ⟨kDLCUDA, 1⟩⟩) 3).fatal.isSome
      = true ∧
    (InitNVSHMEM 2 [9, 8, 7] 2 0 (some ⟨0, ⟨kDLCUDA, 1⟩⟩) 3).worker
      = some ⟨0, ⟨kDLCUDA, 1⟩⟩ := by
  refine ⟨?_, ?_, ?_, ?_⟩
  · exact ((C5_default_device_reconciliation 2 [9, 8, 7] 2 0
      ⟨0, ⟨kDLCPU, 0⟩⟩ 3 (by decide)).1 (by decide)).2
  · exact ((C5_default_device_reconciliation 2 [9, 8, 7] 2 0
      ⟨0, ⟨kDLCUDA, 3⟩⟩ 3 (by decide)).2.1 (by decide) (by decide)).2
  · exact ((C5_default_device_reconciliation 2 [9, 8, 7] 2 0
      ⟨0, ⟨kDLCUDA, 1⟩⟩ 3 (by decide)).2.2 (by decide) (by decide)).1
  · exact ((C5_default_device_reconciliation 2 [9, 8, 7] 2 0
      ⟨0, ⟨kDLCUDA, 1⟩⟩ 3 (by decide)).2.2 (by decide) (by decide)).2

/-- C6: serializing a module writes the format tag, the kernel-info map
and the blob in that order, and deserializing such a stream (with any
continuation) reproduces the blob, format tag and kernel-info map;
likewise saving to a file in the module's own (non-`cu`) format and
loading the written files back reproduces the blob and the kernel-info
map. -/
theorem C6_serialize_roundtrip (m : CUDAModuleNode) (rest : List StreamItem)
    (fn : String) (hfmt : m.fmt ≠ "cu") :
    SaveToBinary m = [.str m.fmt, .infoMap m.fmap, .str m.data] ∧
    CUDAModuleLoadBinary (SaveToBinary m ++ rest)
      = some (CUDAModuleCreate m.data m.fmt m.fmap "", rest) ∧
    ∃ ws, SaveToFile m fn m.fmt = .ok ws ∧
      CUDAModuleLoadFile ws fn m.fmt
        = some (CUDAModuleCreate m.data m.fmt m.fmap "") := by
  refine ⟨rfl, rfl, ?_⟩
  refine ⟨[.meta (GetMetaFilePath fn) m.fmap, .binary fn m.data], ?_, ?_⟩
  · simp [SaveToFile, hfmt]
  · have hne : GetMetaFilePath fn ≠ fn := by
      intro hc
      have h2 : (GetMetaFilePath fn).length = fn.length := by rw [hc]
      simp [GetMetaFilePath, String.length_append] at h2
      exact absurd h2 (by decide)
    simp [CUDAModuleLoadFile, readBinary, readMeta, hne, CUDAModuleCreate]

/-- Witness for C6: a concrete cubin module round-trips through the stream
and through the file writes. -/
theorem C6_serialize_roundtrip_witness :
    CUDAModuleLoadBinary
        (SaveToBinary (CUDAModuleCreate "BLOB" "cubin"
          [("add", ⟨["p", "p", "p"], [], ["grid.x", "block.x"]⟩)] "src") ++ [])
      = some (CUDAModuleCreate "BLOB" "cubin"
          [("add", ⟨["p", "p", "p"], [], ["grid.x", "block.x"]⟩)] "", []) :=
  (C6_serialize_roundtrip
    (CUDAModuleCreate "BLOB" "cubin"
      [("add", ⟨["p", "p", "p"], [], ["grid.x", "block.x"]⟩)] "src")
    [] "f.cubin" (by decide)).2.1

/-- Applying a tag for a different slot leaves a slot unchanged. -/
theorem tagSlot_applyTag_ne (wl : ThreadWorkLoad) (t t2 : LaunchParamTag)
    (v : Nat) (h : t ≠ t2) : tagSlot t (applyTag wl t2 v) = tagSlot t wl := by
  cases t <;> cases t2 <;> simp_all [applyTag, tagSlot]

/-- A fold of tag applications that never touches slot `t` leaves it
unchanged. -/
theorem tagSlot_foldl_ne (t : LaunchParamTag) :
    ∀ (ps : List (LaunchParamTag × Nat)) (wl : ThreadWorkLoad),
      (∀ p ∈ ps, p.1 ≠ t) →
      tagSlot t (ps.foldl (fun acc p => applyTag acc p.1 p.2) wl)
        = tagSlot t wl := by
  intro ps
  induction ps with
  | nil => intro wl _; rfl
  | cons p rest ih =>
      intro wl h
      simp only [List.foldl_cons]
      rw [ih _ fun q hq => h q (List.mem_cons_of_mem p hq)]
      exact tagSlot_applyTag_ne wl t p.1 p.2
        (Ne.symm (h p (List.mem_cons_self p rest)))

/-- C7: the launch-parameter resolver leaves every slot whose tag does not
occur in the tag list at its default — 1 for grid/block dimensions, 0 for
dynamic shared memory — and in particular tags `[grid.x, block.x]` with
arguments `4` and `32` resolve to grid `(4,1,1)`, block `(32,1,1)` and no
dynamic shared memory. -/
theorem C7_launch_param_resolution (tags : List LaunchParamTag)
    (args : List Nat) :
    (∀ t, t ∉ tags →
      tagSlot t (extractLaunchParams tags args) = tagSlot t defaultWorkLoad) ∧
    (∀ t, t ≠ .dynShmem → tagSlot t defaultWorkLoad = 1) ∧
    tagSlot .dynShmem defaultWorkLoad = 0 ∧
    extractLaunchParams [.gridX, .blockX] [4, 32]
      = ⟨4, 1, 1, 32, 1, 1, 0⟩ := by
    refine ⟨?_, ?_, rfl, rfl⟩
    · intro t ht
      unfold extractLaunchParams
      refine tagSlot_foldl_ne t (tags.zip args) defaultWorkLoad ?_
      intro p hp hc
      exact ht (hc ▸ (List.of_mem_zip hp).1)
    · intro t ht
      cases t <;> simp_all [tagSlot, defaultWorkLoad]

/-- Witness for C7: with tags `[grid.x, block.x]`, grid.y stays at its
default 1 and dynamic shared memory stays 0. -/
theorem C7_launch_param_resolution_witness :
    tagSlot .gridY (extractLaunchParams [.gridX, .blockX] [4, 32])
      = tagSlot .gridY defaultWorkLoad ∧
    tagSlot .gridY defaultWorkLoad = 1 ∧
    extractLaunchParams [.gridX, .blockX] [4, 32]
      = ⟨4, 1, 1, 32, 1, 1, 0⟩ := by
  refine ⟨?_, ?_, ?_⟩
  · exact (C7_launch_param_resolution [.gridX, .blockX] [4, 32]).1
      .gridY (by decide)
  · exact (C7_launch_param_resolution [.gridX, .blockX] [4, 32]).2.1
      .gridY (by decide)
  · exact (C7_launch_param_resolution [.gridX, .blockX] [4, 32]).2.2.2

/-- C8: when the size the driver reports for a resolved global symbol
differs from the expected size, `GetGlobal` fails fatally and never
returns an address. -/
theorem C8_global_symbol_size_check (q : GlobalQueryResult)
    (global_name : String) (expect_nbytes : Nat) (errName : Nat → String)
    (h : q.nbytes ≠ expect_nbytes) :
    resolveGlobal q global_name expect_nbytes errName
      = .error ("ConfigurationError: nbytes == expect_nbytes mismatch for "
          ++ global_name) ∧
    ∀ a, resolveGlobal q global_name expect_nbytes errName ≠ .ok a := by
  constructor
  · simp [resolveGlobal, h]
  · intro a hc
    simp [resolveGlobal, h] at hc

/-- Witness for C8: a symbol reported as 8 bytes against an expected 4
bytes is a fatal size mismatch. -/
theorem C8_global_symbol_size_check_witness :
    resolveGlobal ⟨0, 42, 8⟩ "sym" 4 (fun _ => "E")
      = .error ("ConfigurationError: nbytes == expect_nbytes mismatch for "
          ++ "sym") :=
  (C8_global_symbol_size_check ⟨0, 42, 8⟩ "sym" 4 (fun _ => "E")
    (by decide)).1

/-- C9: saving with the human-readable-source format `cu` is fatal when no
source text was retained, writes the metadata file and then the source text
when it is non-empty, and saving with any other format different from the
stored format tag is also fatal. -/
theorem C9_save_to_file_formats (m : CUDAModuleNode) (file_name fmt : String) :
    (fmt = "cu" → m.cuda_source.length = 0 →
      ∃ msg, SaveToFile m file_name fmt = .error msg) ∧
    (fmt = "cu" → m.cuda_source.length ≠ 0 →
      SaveToFile m file_name fmt
        = .ok [.meta (GetMetaFilePath file_name) m.fmap,
               .binary file_name m.cuda_source]) ∧
    (fmt ≠ "cu" → fmt ≠ m.fmt →
      ∃ msg, SaveToFile m file_name fmt = .error msg) := by
  refine ⟨?_, ?_, ?_⟩
  · intro hcu hempty
    exact ⟨"FormatError: no cuda source retained",
      by simp [SaveToFile, hcu, hempty]⟩
  · intro hcu hne
    simp [SaveToFile, hcu, hne]
  · intro hcu hne
    exact ⟨"FormatError: can only save to format " ++ m.fmt,
      by simp [SaveToFile, hcu, hne]⟩

/-- Witness for C9: saving a module without retained source to format `cu`
fails, and with retained source it writes metadata then source. -/
theorem C9_save_to_file_formats_witness :
    (∃ msg, SaveToFile (CUDAModuleCreate "blob" "cubin" [] "") "f" "cu"
      = .error msg) ∧
    SaveToFile (CUDAModuleCreate "blob" "cubin" [] "srct") "f" "cu"
      = .ok [.meta (GetMetaFilePath "f") [], .binary "f" "srct"] := by
  constructor
  · exact (C9_save_to_file_formats
      (CUDAModuleCreate "blob" "cubin" [] "") "f" "cu").1 rfl (by decide)
  · exact (C9_save_to_file_formats
      (CUDAModuleCreate "blob" "cubin" [] "srct") "f" "cu").2.1 rfl (by decide)

/-- C10: a name absent from the kernel-info map that is neither the
global-barrier entry point nor the reserved module-main symbol yields an
empty function without failing, while requesting module-main is fatal. -/
theorem C10_get_function_unknown_name (m : CUDAModuleNode) (name : String)
    (h1 : name ≠ tvm_module_main) (h2 : name ≠ tvm_prepare_global_barrier)
    (h3 : m.fmap.lookup name = none) :
    GetFunction m name = .ok .empty ∧
    ∀ m2 : CUDAModuleNode,
      GetFunction m2 tvm_module_main
        = .error "Device function do not have main" := by
  constructor
  · simp [GetFunction, h1, h2, h3]
  · intro m2
    simp [GetFunction]

/-- Witness for C10: looking up an unknown kernel name on a module with an
empty map yields the empty function; module-main is fatal. -/
theorem C10_get_function_unknown_name_witness :
    GetFunction (CUDAModuleCreate "blob" "cubin" [] "") "missing"
      = .ok .empty ∧
    GetFunction (CUDAModuleCreate "blob" "cubin" [] "") tvm_module_main
      = .error "Device function do not have main" := by
  constructor
  · exact (C10_get_function_unknown_name
      (CUDAModuleCreate "blob" "cubin" [] "") "missing"
      (by decide) (by decide) rfl).1
  · exact (C10_get_function_unknown_name
      (CUDAModuleCreate "blob" "cubin" [] "") "missing"
      (by decide) (by decide) rfl).2 (CUDAModuleCreate "blob" "cubin" [] "")

end Spec2Proof
